import Mathlib

/-!
Shallow embedding of the crptt cryptocurrency-dashboard repository
(sources: utils.py, api_service.py, database.py, data_processor.py,
ml_predictor.py, ai_analyzer.py) together with theorems settling the
frozen behavioural claims about it.

Modelling conventions:
  - Python floats are modelled as rationals; where IEEE special values
    (NaN and the infinities) are observable through pandas/numpy
    operations, the dedicated type PVal is used.
  - Python datetimes are modelled as integer (or rational) epoch
    seconds; a timedelta of n days is n * 86400 seconds.
  - Calls into external services and libraries (HTTP responses, the
    fitted forecasting models, the language model) are modelled as
    explicit oracle parameters; the code under verification is the glue
    translated from the repository sources.
  - Fallible code returns Except; a Python function that catches all
    exceptions and substitutes a fallback is modelled as a total
    function matching on the Except value of its fallible part.
-/

namespace Crptt

/-! ## Calendar arithmetic (for datetime(2013, 4, 28)) -/

/-- Gregorian leap-year test. -/
def isLeap (y : Nat) : Bool :=
  (y % 4 == 0 && y % 100 != 0) || (y % 400 == 0)

/-- Length of month m (1-12) in year y. -/
def daysInMonth (y m : Nat) : Nat :=
  if m = 2 then (if isLeap y then 29 else 28)
  else if m = 4 ∨ m = 6 ∨ m = 9 ∨ m = 11 then 30
  else 31

/-- Days from 1970-01-01 to year-month-day (for dates at or after 1970). -/
def daysSinceEpoch (y m d : Nat) : Nat :=
  (List.range (y - 1970)).foldl (fun acc i => acc + (if isLeap (1970 + i) then 366 else 365)) 0
    + (List.range (m - 1)).foldl (fun acc i => acc + daysInMonth y (i + 1)) 0
    + (d - 1)

/-- A timedelta of n days, in seconds. -/
def timedeltaDays (n : Int) : Int := n * 86400

/-- Epoch seconds of the naive datetime(2013, 4, 28) (midnight). -/
def datetime_2013_04_28 : Int := (daysSinceEpoch 2013 4 28 : Int) * 86400

/-! ## utils.calculate_date_range -/

/-- Embedding of utils.calculate_date_range: maps a timeframe string to
a (start_date, end_date) pair of epoch seconds, end_date being the
current time (the now argument). Any string outside the five named
timeframes falls into the All Time branch, whose start is the fixed
datetime(2013, 4, 28). -/
def calculate_date_range (now : Int) (timeframe : String) : Int × Int :=
  if timeframe = "24h" then (now - timedeltaDays 1, now)
  else if timeframe = "7d" then (now - timedeltaDays 7, now)
  else if timeframe = "30d" then (now - timedeltaDays 30, now)
  else if timeframe = "90d" then (now - timedeltaDays 90, now)
  else if timeframe = "1y" then (now - timedeltaDays 365, now)
  else (datetime_2013_04_28, now)

/-- Embedding of the identical timeframe branch at the top of
api_service.get_token_data (and get_market_data): returns the
(start_date, end_date) window together with the sampling interval
string chosen for the timeframe. -/
def token_data_date_range (now : Int) (timeframe : String) : (Int × Int) × String :=
  if timeframe = "24h" then ((now - timedeltaDays 1, now), "hourly")
  else if timeframe = "7d" then ((now - timedeltaDays 7, now), "hourly")
  else if timeframe = "30d" then ((now - timedeltaDays 30, now), "daily")
  else if timeframe = "90d" then ((now - timedeltaDays 90, now), "daily")
  else if timeframe = "1y" then ((now - timedeltaDays 365, now), "daily")
  else ((datetime_2013_04_28, now), "daily")

/-! ## api_service._get_token_id -/

/-- The static symbol-to-provider-id table of api_service._get_token_id. -/
def symbol_to_id : List (String × String) :=
  [("BTC", "bitcoin"), ("ETH", "ethereum"), ("BNB", "binancecoin"),
   ("XRP", "ripple"), ("ADA", "cardano"), ("SOL", "solana"),
   ("DOT", "polkadot"), ("DOGE", "dogecoin"), ("AVAX", "avalanche-2"),
   ("LINK", "chainlink"), ("MATIC", "matic-network"), ("LTC", "litecoin"),
   ("UNI", "uniswap"), ("ATOM", "cosmos"), ("ETC", "ethereum-classic"),
   ("XLM", "stellar"), ("ALGO", "algorand"), ("FIL", "filecoin"),
   ("VET", "vechain"), ("THETA", "theta-token")]

/-- One entry of the provider coin-list endpoint response. -/
structure CoinEntry where
  symbol : String
  id : String
deriving DecidableEq, Repr

/-- Python str.upper on the ASCII symbols in play (character-by-character
uppercasing). -/
def pyUpper (s : String) : String := String.mk (s.data.map Char.toUpper)

/-- Python str.lower on the ASCII texts in play. -/
def pyLower (s : String) : String := String.mk (s.data.map Char.toLower)

/-- Embedding of api_service._get_token_id. The coin-list endpoint is an
oracle: none models a failed network call (the except branch returns
None), some cs the parsed response. The second component of the result
records whether the coin-list endpoint was consulted at all; the static
table is checked first and a hit never touches the network. -/
def _get_token_id (coinList : Option (List CoinEntry)) (symbol : String) :
    Option String × Bool :=
  match symbol_to_id.find? (fun p => p.1 = pyUpper symbol) with
  | some p => (some p.2, false)
  | none =>
    match coinList with
    | none => (none, true)
    | some cs => ((cs.find? (fun c => pyUpper c.symbol = pyUpper symbol)).map CoinEntry.id, true)

/-! ## api_service.make_api_request -/

/-- Outcome of one HTTP attempt: a successful JSON payload (abstracted
to a natural number) or a requests.RequestException carrying the status
code of its response, when a response exists. -/
inductive ReqOutcome where
  | ok (v : Nat)
  | fail (status : Option Nat)
deriving DecidableEq, Repr

/-- What make_api_request does overall: return a payload, let an
exception propagate, or fall off the end of the loop (Python then
returns None, which happens only when retries = 0). -/
inductive ReqResult where
  | json (v : Nat)
  | raised (status : Option Nat)
  | fellThrough
deriving DecidableEq, Repr

/-- The retry loop of api_service.make_api_request, iterating over the
remaining attempt indices. outcomes i is the result of attempt i
(an oracle for the network), jit i the random.uniform(0, 1) draw of
attempt i. The accumulated list records every sleep duration performed,
in order. Source logic per failed attempt i: if i is the last attempt,
re-raise; else if the response status is 429, sleep
backoff * 2 ^ i + jitter and continue; else re-raise immediately. -/
def runAttempts (outcomes : Nat → ReqOutcome) (jit : Nat → ℚ)
    (retries : Nat) (backoff : ℚ) : List Nat → List ℚ → ReqResult × List ℚ
  | [], sleeps => (.fellThrough, sleeps)
  | i :: rest, sleeps =>
    match outcomes i with
    | .ok v => (.json v, sleeps)
    | .fail st =>
      if i = retries - 1 then (.raised st, sleeps)
      else if st = some 429 then
        runAttempts outcomes jit retries backoff rest (sleeps ++ [backoff * 2 ^ i + jit i])
      else (.raised st, sleeps)

/-- Embedding of api_service.make_api_request with default-style
arguments made explicit: runs the loop for i in range(retries). -/
def make_api_request (outcomes : Nat → ReqOutcome) (jit : Nat → ℚ)
    (retries : Nat) (backoff : ℚ) : ReqResult × List ℚ :=
  runAttempts outcomes jit retries backoff (List.range retries) []

/-! ## database.save_data (token_data table) and get_historical_data -/

/-- A row of the token_data table: (token, date, price, market_cap, volume).
The table was created with PRIMARY KEY (token, date). -/
structure TokenRow where
  token : String
  date : String
  price : ℚ
  market_cap : ℚ
  volume : ℚ
deriving DecidableEq, Repr

/-- Whether the table already holds a row with the given primary key. -/
def hasKey (t : List TokenRow) (token date : String) : Bool :=
  t.any (fun r => r.token = token && r.date = date)

/-- One INSERT into token_data: SQLite raises IntegrityError (UNIQUE
constraint failed) when the primary key (token, date) already exists;
otherwise the row is appended. -/
def insertTokenRow (t : List TokenRow) (r : TokenRow) : Except String (List TokenRow) :=
  if hasKey t r.token r.date then
    .error "UNIQUE constraint failed: token_data.token, token_data.date"
  else
    .ok (t ++ [r])

/-- pandas DataFrame.to_sql with if_exists set to append, against the
token_data table: inserts every row inside one transaction, so the
first duplicate-key IntegrityError aborts the whole call and the table
is left unchanged by it. -/
def to_sql_append (t : List TokenRow) (rows : List TokenRow) : Except String (List TokenRow) :=
  rows.foldlM insertTokenRow t

/-- The token-data write path of database.save_data: runs to_sql
(append) inside the try block; any exception is caught by the except
branch, printed and swallowed, leaving the table as it was before the
failing to_sql call. -/
def save_data_token (t : List TokenRow) (rows : List TokenRow) : List TokenRow :=
  match to_sql_append t rows with
  | .ok t2 => t2
  | .error _ => t

/-- The date_filter / params construction of database.get_historical_data:
a WHERE clause fragment and the positional parameter list, for each
combination of the optional start_date and end_date arguments. -/
def dateFilterClause (start_date end_date : Option String) : String × List String :=
  let f1 : String × List String :=
    match start_date with
    | some s => (" WHERE date >= ?", [s])
    | none => ("", [])
  let f2 : String × List String :=
    match end_date with
    | some e => (if start_date.isSome then " AND date <= ?" else " WHERE date <= ?", [e])
    | none => ("", [])
  (f1.1 ++ f2.1, f1.2 ++ f2.2)

/-- The per-token filter of get_historical_data: when a date filter
exists, splice token = ? in after WHERE; otherwise start a fresh
WHERE clause. -/
def tokenFilterClause (date_filter : String) : String :=
  if date_filter ≠ "" then date_filter.replace "WHERE" "WHERE token = ? AND"
  else " WHERE token = ?"

/-- Embedding of database.get_historical_data. The database is an
oracle runQuery mapping an SQL string and its parameters to either a
result table (each table abstracted to its list of rows of rationals)
or a raised exception; the DISTINCT-token query is a second oracle.
The try block chains the market query, the token enumeration and one
query per token; any exception anywhere makes the except branch return
(None, None). -/
def get_historical_data
    (runQuery : String → List String → Except String (List (List ℚ)))
    (distinctTokens : Except String (List String))
    (start_date end_date : Option String) :
    Option (List (List ℚ)) × Option (List (String × List (List ℚ))) :=
  let fp := dateFilterClause start_date end_date
  let attempt : Except String ((List (List ℚ)) × List (String × List (List ℚ))) :=
    Except.bind (runQuery ("SELECT * FROM market_data" ++ fp.1 ++ " ORDER BY date") fp.2)
      (fun market =>
        Except.bind distinctTokens (fun tokens =>
          Except.map (fun td => (market, td))
            (tokens.mapM (fun tok =>
              Except.map (fun rows => (tok, rows))
                (runQuery
                  ("SELECT * FROM token_data" ++ tokenFilterClause fp.1 ++ " ORDER BY date")
                  (tok :: fp.2))))))
  match attempt with
  | .ok r => (some r.1, some r.2)
  | .error _ => (none, none)

/-! ## Pandas/NumPy float semantics and data_processor.process_historical_data -/

/-- A pandas float cell: a finite rational, NaN (the NA marker), or one
of the infinities. Division by an exact zero follows IEEE semantics:
positive / 0 = +inf, negative / 0 = -inf, 0 / 0 = NaN. -/
inductive PVal where
  | val (q : ℚ)
  | nan
  | pinf
  | ninf
deriving DecidableEq, Repr

/-- Elementwise float division of two finite cells. -/
def pdivQ (n d : ℚ) : PVal :=
  if d ≠ 0 then .val (n / d)
  else if 0 < n then .pinf
  else if n < 0 then .ninf
  else .nan

/-- pct_change times 100 applied to one adjacent pair: (cur/prev - 1) * 100
with IEEE behaviour at prev = 0. -/
def pct100 (prev cur : ℚ) : PVal :=
  if prev ≠ 0 then .val ((cur / prev - 1) * 100)
  else if 0 < cur then .pinf
  else if cur < 0 then .ninf
  else .nan

/-- Series.pct_change() * 100 on a finite column: the first entry is
NaN, entry i is pct100 of entries i-1 and i. -/
def pctChange100 (xs : List ℚ) : List PVal :=
  (List.range xs.length).map (fun i =>
    if i = 0 then .nan else pct100 (xs.getD (i - 1) 0) (xs.getD i 0))

/-- The trailing window of width w ending at index i (indices i+1-w .. i). -/
def trailingWindow (xs : List α) (w i : Nat) : List α :=
  (xs.take (i + 1)).drop (i + 1 - w)

/-- Arithmetic mean of a finite list of rationals. -/
def listMean (l : List ℚ) : ℚ := l.sum / l.length

/-- Sample variance (ddof = 1), as used by pandas rolling std. -/
def sampleVar (l : List ℚ) : ℚ :=
  let μ := listMean l
  (l.map (fun x => (x - μ) ^ 2)).sum / ((l.length : ℚ) - 1)

/-- Extracts the finite values from a window; none when the window
contains NaN or an infinity, in which case every pandas rolling
aggregation of the window yields NaN (min_periods defaults to the
window width, and arithmetic on an infinity produces NaN through the
inf - inf term of the variance). -/
def allVals : List PVal → Option (List ℚ)
  | [] => some []
  | .val q :: rest => (allVals rest).map (q :: ·)
  | _ => none

/-- Series.rolling(window = w).mean() on a finite column: NaN until w
observations are available. -/
def rollingMean (w : Nat) (xs : List ℚ) : List PVal :=
  (List.range xs.length).map (fun i =>
    if i + 1 < w then .nan else .val (listMean (trailingWindow xs w i)))

/-- Series.rolling(window = w).std() on a PVal column (here: the
daily_return column). The square root is library arithmetic on
nonnegative floats and is modelled by an abstract function sqrtQ; it
never affects which cells are NaN. -/
def rollingStd (sqrtQ : ℚ → ℚ) (w : Nat) (xs : List PVal) : List PVal :=
  (List.range xs.length).map (fun i =>
    if i + 1 < w then .nan
    else
      match allVals (trailingWindow xs w i) with
      | some qs => .val (sqrtQ (sampleVar qs))
      | none => .nan)

/-- DataFrame.fillna(method = bfill) on one column: each NaN takes the
value of the nearest later non-NaN cell; trailing NaN cells stay NaN. -/
def bfill : List PVal → List PVal
  | [] => []
  | x :: xs =>
    let rest := bfill xs
    (if x = PVal.nan then rest.headD PVal.nan else x) :: rest

/-- One input row of process_historical_data: (date, price, market_cap,
volume), date in epoch seconds. -/
structure DataRow where
  date : Int
  price : ℚ
  market_cap : ℚ
  volume : ℚ
deriving DecidableEq, Repr

/-- The processed frame produced by data_processor.process_historical_data,
after the final fillna(bfill). -/
structure ProcessedFrame where
  date : List Int
  price : List ℚ
  market_cap : List ℚ
  volume : List ℚ
  daily_return : List PVal
  volatility : List PVal
  market_cap_change : List PVal
  volume_to_mcap : List PVal
  price_7d_ma : List PVal
  price_30d_ma : List PVal
  market_cap_7d_ma : List PVal
  market_cap_30d_ma : List PVal
  volume_7d_ma : List PVal
  volume_30d_ma : List PVal

/-- Embedding of data_processor.process_historical_data: sort the rows
by date, derive daily_return (pct_change * 100), volatility (10-point
rolling std of daily_return), market_cap_change (pct_change * 100),
volume_to_mcap (elementwise division, unguarded), the 7- and 30-point
rolling means of price, market_cap, volume, then back-fill NA cells.
The base columns contain no NaN, so fillna leaves them unchanged. -/
def process_historical_data (sqrtQ : ℚ → ℚ) (rows : List DataRow) : ProcessedFrame :=
  let df := rows.insertionSort (fun a b => a.date ≤ b.date)
  let price := df.map DataRow.price
  let mcap := df.map DataRow.market_cap
  let volume := df.map DataRow.volume
  let daily_return := pctChange100 price
  { date := df.map DataRow.date
    price := price
    market_cap := mcap
    volume := volume
    daily_return := bfill daily_return
    volatility := bfill (rollingStd sqrtQ 10 daily_return)
    market_cap_change := bfill (pctChange100 mcap)
    volume_to_mcap := bfill (List.zipWith pdivQ volume mcap)
    price_7d_ma := bfill (rollingMean 7 price)
    price_30d_ma := bfill (rollingMean 30 price)
    market_cap_7d_ma := bfill (rollingMean 7 mcap)
    market_cap_30d_ma := bfill (rollingMean 30 mcap)
    volume_7d_ma := bfill (rollingMean 7 volume)
    volume_30d_ma := bfill (rollingMean 30 volume) }

/-! ## ml_predictor -/

/-- The dict returned by the three predict_with_* functions
(accuracy is present only in the ARIMA result). Dates are epoch
seconds. -/
structure ForecastResult where
  date : List Int
  predicted_price : List ℚ
  upper_bound : List ℚ
  lower_bound : List ℚ
  accuracy : Option ℚ
deriving DecidableEq, Repr

/-- Minimum of a nonempty price list (Python min; the source raises on
an empty series, which is outside the modelled domain - theorems
assume a nonempty input). -/
def listMin : List ℚ → ℚ
  | [] => 0
  | x :: xs => xs.foldl min x

/-- Maximum of a nonempty price list (Python max). -/
def listMax : List ℚ → ℚ
  | [] => 0
  | x :: xs => xs.foldl max x

/-- Mean absolute percentage error of in-sample predictions against
prices[1:], as in the ARIMA accuracy computation. numpy raises when
the two arrays have different lengths; zipWith models the aligned
case, which is the only one any theorem relies on (none does). -/
def mape (prices predictions : List ℚ) : ℚ :=
  let diffs := List.zipWith (fun p q => |(p - q) / p|) (prices.drop 1) predictions
  listMean diffs * 100

/-- Embedding of ml_predictor.predict_with_arima. The fitted
statsmodels model is an oracle: arimaForecast gives the point forecast
for the given prices and step count, arimaStd the forecast standard
errors, arimaInSample the in-sample predictions used for the accuracy
figure. Everything else is source logic: sort by date, forecast dates
last_date + 1 .. last_date + prediction_days (in days of seconds),
bounds forecast -+ 1.96 * std with the lower bound clamped at 0 by
np.maximum. -/
def predict_with_arima
    (arimaForecast arimaStd : List ℚ → Nat → List ℚ)
    (arimaInSample : List ℚ → List ℚ)
    (data : List (Int × ℚ)) (prediction_days : Nat) : ForecastResult :=
  let df := data.insertionSort (fun a b => a.1 ≤ b.1)
  let prices := df.map Prod.snd
  let forecast := arimaForecast prices prediction_days
  let forecast_std := arimaStd prices prediction_days
  let last_date := (df.map Prod.fst).getLastD 0
  let forecast_dates := (List.range prediction_days).map
    (fun (i : Nat) => last_date + timedeltaDays ((i : Int) + 1))
  { date := forecast_dates
    predicted_price := forecast
    upper_bound := List.zipWith (fun f s => f + 49 / 25 * s) forecast forecast_std
    lower_bound := List.zipWith (fun f s => max (f - 49 / 25 * s) 0) forecast forecast_std
    accuracy := some (100 - mape prices (arimaInSample prices)) }

/-- Embedding of ml_predictor.predict_with_lstm. The trained network
is an oracle lstmPred from the normalized price series and the horizon
to the normalized one-step-rollout predictions. Source logic: min-max
normalization, denormalization, dates last_date + 1 .., symmetric 10
percent uncertainty bounds with no clamping. The normalization divides
by max - min, which for a constant series is a float 0/0 (NaN) in the
source; theorems never rely on that case. -/
def predict_with_lstm
    (lstmPred : List ℚ → Nat → List ℚ)
    (data : List (Int × ℚ)) (prediction_days : Nat) : ForecastResult :=
  let df := data.insertionSort (fun a b => a.1 ≤ b.1)
  let prices := df.map Prod.snd
  let min_price := listMin prices
  let max_price := listMax prices
  let prices_normalized := prices.map (fun p => (p - min_price) / (max_price - min_price))
  let predicted_normalized := lstmPred prices_normalized prediction_days
  let predicted_prices := predicted_normalized.map
    (fun p => p * (max_price - min_price) + min_price)
  let last_date := (df.map Prod.fst).getLastD 0
  let forecast_dates := (List.range prediction_days).map
    (fun (i : Nat) => last_date + timedeltaDays ((i : Int) + 1))
  { date := forecast_dates
    predicted_price := predicted_prices
    upper_bound := predicted_prices.map (fun p => p * (1 + 1 / 10))
    lower_bound := predicted_prices.map (fun p => p * (1 - 1 / 10))
    accuracy := none }

/-- One row of the Prophet forecast frame: (ds, yhat, yhat_upper,
yhat_lower). -/
structure ProphetRow where
  ds : Int
  yhat : ℚ
  yhat_upper : ℚ
  yhat_lower : ℚ
deriving DecidableEq, Repr

/-- Embedding of ml_predictor.predict_with_prophet. The fitted Prophet
model (make_future_dataframe plus predict) is an oracle producing the
full forecast frame; the source keeps the last prediction_days rows
and returns their columns unchanged - in particular yhat_lower is not
clamped. -/
def predict_with_prophet
    (prophetOracle : List (Int × ℚ) → Nat → List ProphetRow)
    (data : List (Int × ℚ)) (prediction_days : Nat) : ForecastResult :=
  let df := data.insertionSort (fun a b => a.1 ≤ b.1)
  let rows := prophetOracle df prediction_days
  let tail := rows.drop (rows.length - prediction_days)
  { date := tail.map ProphetRow.ds
    predicted_price := tail.map ProphetRow.yhat
    upper_bound := tail.map ProphetRow.yhat_upper
    lower_bound := tail.map ProphetRow.yhat_lower
    accuracy := none }

/-- Embedding of ml_predictor.predict_prices: dispatch on the
model_type string to one of the three backends; any other string
raises ValueError naming the unknown model type. -/
def predict_prices
    (arimaForecast arimaStd : List ℚ → Nat → List ℚ)
    (arimaInSample : List ℚ → List ℚ)
    (lstmPred : List ℚ → Nat → List ℚ)
    (prophetOracle : List (Int × ℚ) → Nat → List ProphetRow)
    (historical_data : List (Int × ℚ)) (model_type : String)
    (prediction_days : Nat) : Except String ForecastResult :=
  if model_type = "ARIMA" then
    .ok (predict_with_arima arimaForecast arimaStd arimaInSample historical_data prediction_days)
  else if model_type = "LSTM" then
    .ok (predict_with_lstm lstmPred historical_data prediction_days)
  else if model_type = "Prophet" then
    .ok (predict_with_prophet prophetOracle historical_data prediction_days)
  else
    .error ("Unknown model type: " ++ model_type)

/-! ## ai_analyzer.extract_rating

The two regular expressions of extract_rating are embedded as
deterministic matchers over character lists. Both patterns are simple
enough that Python regex backtracking never changes the outcome: after
a maximal digit run the next character is not a digit, so a shorter
run can never extend to a match, and when a fractional part is
present but the continuation fails, dropping the optional fractional
group leaves the dot in place, which also fails the continuation.
re.search semantics: the leftmost starting position that matches wins. -/

/-- Value of a digit run. -/
def digitsToNat (ds : List Char) : Nat :=
  ds.foldl (fun a c => a * 10 + (c.toNat - 48)) 0

/-- Value of an integer part plus optional fractional digit run. -/
def numVal (ip fp : List Char) : ℚ :=
  (digitsToNat ip : ℚ) + (digitsToNat fp : ℚ) / 10 ^ fp.length

/-- Greedy match of the number pattern (digits with an optional dot and
fractional digits) at the head of the input; returns the value and the
remaining characters. -/
def matchNumber (cs : List Char) : Option (ℚ × List Char) :=
  let ip := cs.takeWhile Char.isDigit
  let r1 := cs.dropWhile Char.isDigit
  if ip.isEmpty then none
  else
    match r1 with
    | '.' :: r2 =>
      let fp := r2.takeWhile Char.isDigit
      if fp.isEmpty then some (numVal ip [], r1)
      else some (numVal ip fp, r2.dropWhile Char.isDigit)
    | _ => some (numVal ip [], r1)

/-- Skip a run of whitespace (the regex star of whitespace; Python
also counts form and vertical feed, immaterial here). -/
def skipSpaces (cs : List Char) : List Char :=
  cs.dropWhile Char.isWhitespace

/-- The continuation of the first pattern after the number: optional
whitespace, a slash or the words out of, optional whitespace, then the
digits 1 and 0. -/
def matchTail10 (cs : List Char) : Bool :=
  let afterSep : Option (List Char) :=
    match skipSpaces cs with
    | '/' :: t => some t
    | 'o' :: 'u' :: 't' :: ' ' :: 'o' :: 'f' :: t => some t
    | _ => none
  match afterSep with
  | none => false
  | some t =>
    match skipSpaces t with
    | '1' :: '0' :: _ => true
    | _ => false

/-- Attempt of the full first pattern at one starting position. -/
def matchPat1At (cs : List Char) : Option ℚ :=
  match matchNumber cs with
  | none => none
  | some (v, rest) => if matchTail10 rest then some v else none

/-- re.search of the first pattern: leftmost matching start position. -/
def searchPat1 : List Char → Option ℚ
  | [] => none
  | c :: rest =>
    match matchPat1At (c :: rest) with
    | some v => some v
    | none => searchPat1 rest

/-- Attempt of the second pattern at one starting position: the literal
word rating, any run of non-digits, then a number. -/
def matchPat2At (cs : List Char) : Option ℚ :=
  match cs with
  | 'r' :: 'a' :: 't' :: 'i' :: 'n' :: 'g' :: t =>
    (matchNumber (t.dropWhile (fun c => !c.isDigit))).map Prod.fst
  | _ => none

/-- re.search of the second pattern. -/
def searchPat2 : List Char → Option ℚ
  | [] => none
  | c :: rest =>
    match matchPat2At (c :: rest) with
    | some v => some v
    | none => searchPat2 rest

/-- Embedding of ai_analyzer.extract_rating: try the slash-or-out-of-10
pattern on the raw text; on failure try the rating pattern on the
lowercased text, keeping the value only when it lies in [0, 10];
otherwise the fixed neutral value 5.0. -/
def extract_rating (analysis_text : String) : ℚ :=
  match searchPat1 analysis_text.data with
  | some v => v
  | none =>
    match searchPat2 (pyLower analysis_text).data with
    | some rating => if 0 ≤ rating ∧ rating ≤ 10 then rating else 5
    | none => 5

/-! ## ai_analyzer.generate_mock_analysis and analyze_whitepaper -/

/-- The analysis dict: four assessment texts, a summary, and four
numeric ratings. -/
structure Analysis where
  security : String
  growth : String
  risk : String
  technology : String
  summary : String
  security_rating : ℚ
  growth_rating : ℚ
  risk_rating : ℚ
  tech_rating : ℚ
deriving DecidableEq, Repr

/-- Python round(x, 1). Modelled as floor(10 x + 1/2) / 10; Python uses
round-half-even on binary floats, which differs only on exact
midpoints and affects no claim. -/
def round1 (q : ℚ) : ℚ := (⌊q * 10 + 1 / 2⌋ : ℚ) / 10

/-- Decimal rendering of a one-decimal nonnegative rating, as the
f-string interpolation prints it. -/
def ratingStr (q : ℚ) : String :=
  let k : Int := ⌊q * 10⌋
  toString (k / 10) ++ "." ++ toString (k % 10)

/-- Embedding of ai_analyzer.generate_mock_analysis. The four uniform
draws random.uniform(5.0, 8.5), (5.0, 9.0), (4.0, 7.5), (5.5, 8.5) are
the parameters u1..u4; each rating is the draw rounded to one decimal.
The long filler prose of the source is abbreviated to its first clause
plus the rating sentence (no claim inspects the prose). -/
def generate_mock_analysis (project_name : String) (u1 u2 u3 u4 : ℚ) : Analysis :=
  let security_rating := round1 u1
  let growth_rating := round1 u2
  let risk_rating := round1 u3
  let tech_rating := round1 u4
  { security := "The " ++ project_name ++
      " project demonstrates a satisfactory security framework. Rating: " ++
      ratingStr security_rating ++ "/10"
    growth := "Analysis of " ++ project_name ++
      " growth potential reveals promising market positioning. Rating: " ++
      ratingStr growth_rating ++ "/10"
    risk := "The " ++ project_name ++
      " project faces several investment risks worth noting. Rating: " ++
      ratingStr risk_rating ++ "/10"
    technology := "From a technological standpoint, " ++ project_name ++
      " demonstrates notable innovation in several areas. Rating: " ++
      ratingStr tech_rating ++ "/10"
    summary := "The " ++ project_name ++
      " project presents a balanced profile with particular strengths " ++
      "in its growth potential and technological innovation."
    security_rating := security_rating
    growth_rating := growth_rating
    risk_rating := risk_rating
    tech_rating := tech_rating }

/-- Embedding of ai_analyzer.analyze_whitepaper. The whitepaper
download and the five chain runs against the language model are an
oracle llmTexts (none models any exception inside the try block, or a
missing response). With an empty OPENAI_API_KEY the language-model
branch is never entered; every failure path falls through to
generate_mock_analysis. On success the four ratings are extracted from
the returned texts with extract_rating. -/
def analyze_whitepaper (openai_api_key : String)
    (llmTexts : Option (String × String × String × String × String))
    (project_name : String) (u1 u2 u3 u4 : ℚ) : Analysis :=
  if openai_api_key = "" then generate_mock_analysis project_name u1 u2 u3 u4
  else
    match llmTexts with
    | none => generate_mock_analysis project_name u1 u2 u3 u4
    | some (sec, gro, ris, tec, summ) =>
      { security := sec
        growth := gro
        risk := ris
        technology := tec
        summary := summ
        security_rating := extract_rating sec
        growth_rating := extract_rating gro
        risk_rating := extract_rating ris
        tech_rating := extract_rating tec }

/-! ## api_service.get_token_data and get_market_data -/

/-- The structured token series built by get_token_data. Dates are
rational epoch seconds (the source divides millisecond stamps by
1000 with float division). -/
structure TokenData where
  date : List ℚ
  price : List ℚ
  market_cap : List ℚ
  volume : List ℚ
deriving DecidableEq, Repr

/-- The market_chart/range response: parallel (millisecond timestamp,
value) lists. -/
structure RawChart where
  prices : List (Int × ℚ)
  market_caps : List (Int × ℚ)
  total_volumes : List (Int × ℚ)
deriving DecidableEq, Repr

/-- Lookup in a dict built by comprehension from a pair list: a later
duplicate key overwrites an earlier one, so the last binding wins;
missing keys give the default (the source uses .get(date_ms, 0)). -/
def lookupLastD (l : List (Int × ℚ)) (k : Int) (d : ℚ) : ℚ :=
  (((l.reverse).find? (fun p => p.1 = k)).map Prod.snd).getD d

/-- The mock token series of the except branch of get_token_data:
30 daily points ending now, base magnitudes chosen by token symbol,
u, v, w the random.uniform(-0.05, 0.05) / (-0.05, 0.05) / (-0.1, 0.1)
draws per point. -/
def mock_token_data (now : ℚ) (token : String) (u v w : Nat → ℚ) : TokenData :=
  let price_base : ℚ := if token = "BTC" then 100 else if token = "ETH" then 1 else 1 / 10
  let market_cap_base : ℚ :=
    if token = "BTC" then 10 ^ 11 else if token = "ETH" then 5 * 10 ^ 10 else 10 ^ 9
  let volume_base : ℚ :=
    if token = "BTC" then 5 * 10 ^ 9 else if token = "ETH" then 2 * 10 ^ 9 else 5 * 10 ^ 8
  { date := (List.range 30).map (fun (i : Nat) => now - (29 - (i : ℚ)) * 86400)
    price := (List.range 30).map (fun i => price_base * (1 + u i))
    market_cap := (List.range 30).map (fun i => market_cap_base * (1 + v i))
    volume := (List.range 30).map (fun i => volume_base * (1 + w i)) }

/-- Embedding of api_service.get_token_data. Oracles: coinList for the
coin-list endpoint used by _get_token_id, chart for the
market_chart/range request (none models a raised RequestException or
missing fields). An unresolved token id raises ValueError inside the
try block; every exception lands in the except branch, which returns
the mock series. On success market-cap and volume points are aligned
to price timestamps by exact match, defaulting to 0. -/
def get_token_data (coinList : Option (List CoinEntry)) (chart : Option RawChart)
    (now : ℚ) (token : String) (u v w : Nat → ℚ) : TokenData :=
  match (_get_token_id coinList token).1 with
  | none => mock_token_data now token u v w
  | some _ =>
    match chart with
    | none => mock_token_data now token u v w
    | some ch =>
      { date := ch.prices.map (fun p => (p.1 : ℚ) / 1000)
        price := ch.prices.map Prod.snd
        market_cap := ch.prices.map (fun p => lookupLastD ch.market_caps p.1 0)
        volume := ch.prices.map (fun p => lookupLastD ch.total_volumes p.1 0) }

/-- The structured market series built by get_market_data. -/
structure MarketData where
  date : List ℚ
  market_cap : List ℚ
  volume : List ℚ
  btc_dominance : List ℚ
deriving DecidableEq, Repr

/-- The mock market series of the except branch of get_market_data:
30 daily points ending now; mu, mv the random.uniform(-0.05, 0.05) and
(-0.1, 0.1) draws, mb the random.uniform(-5, 5) draws. -/
def mock_market_data (now : ℚ) (mu mv mb : Nat → ℚ) : MarketData :=
  { date := (List.range 30).map (fun (i : Nat) => now - (29 - (i : ℚ)) * 86400)
    market_cap := (List.range 30).map (fun i => (21 / 10) * 10 ^ 12 * (1 + mu i))
    volume := (List.range 30).map (fun i => (12 / 10) * 10 ^ 11 * (1 + mv i))
    btc_dominance := (List.range 30).map (fun i => 45 + mb i) }

/-- Embedding of api_service.get_market_data. Oracles: chart for the
global history market-cap-by-date entries, globalRes for the /global
snapshot (latest volume, latest BTC dominance); none models a raised
exception. variation i is the random.uniform(0.8, 1.2) draw for
point i. Success path per source: volume back-filled from the latest
snapshot through a fitted ratio (a float division that the claims
never exercise at a zero last market cap), the latest point keeping
the exact snapshot volume; BTC dominance grown by 0.01 per day of age,
the increment capped at 30 and the total at 90. An empty entry list
makes the source index market_cap[-1] out of range, which also lands
in the except branch. -/
def get_market_data (chart : Option (List (Int × ℚ))) (globalRes : Option (ℚ × ℚ))
    (variation : Nat → ℚ) (now : ℚ) (mu mv mb : Nat → ℚ) : MarketData :=
  match chart, globalRes with
  | some entries, some g =>
    if entries.isEmpty then mock_market_data now mu mv mb
    else
      let dates := entries.map (fun e => (e.1 : ℚ) / 1000)
      let mcaps := entries.map Prod.snd
      let latest_volume := g.1
      let latest_btc_dominance := g.2
      let volume_factor := latest_volume / mcaps.getLastD 0
      let n := mcaps.length
      let volume := (List.range n).map (fun i =>
        if i = n - 1 then latest_volume
        else mcaps.getD i 0 * volume_factor * variation i)
      let lastDate := dates.getLastD 0
      let dominance := (List.range n).map (fun i =>
        let days_ago : Int := ⌊(lastDate - dates.getD i 0) / 86400⌋
        if days_ago = 0 then latest_btc_dominance
        else min (latest_btc_dominance + min ((days_ago : ℚ) * (1 / 100)) 30) 90)
      { date := dates, market_cap := mcaps, volume := volume, btc_dominance := dominance }
  | _, _ => mock_market_data now mu mv mb

/-! ## Shared helper lemmas -/

/-- The last element of a map over List.range n is the image of n - 1. -/
lemma getLast?_range_map {α : Type} (f : Nat → α) (n : Nat) (hn : 0 < n) :
    ((List.range n).map f).getLast? = some (f (n - 1)) := by
  obtain ⟨m, rfl⟩ : ∃ m, n = m + 1 := ⟨n - 1, by omega⟩
  rw [List.range_succ, List.map_append]
  simp

/-- The head of a map over List.range n is the image of 0. -/
lemma head?_range_map {α : Type} (f : Nat → α) (n : Nat) (hn : 0 < n) :
    ((List.range n).map f).head? = some (f 0) := by
  obtain ⟨m, rfl⟩ : ∃ m, n = m + 1 := ⟨n - 1, by omega⟩
  rw [List.range_succ_eq_map]
  simp

/-! ## C7: timeframe windows (helper evaluations) -/

lemma cdr_24h (now : Int) : calculate_date_range now "24h" = (now - 1 * 86400, now) := rfl

lemma cdr_7d (now : Int) : calculate_date_range now "7d" = (now - 7 * 86400, now) := rfl

lemma cdr_30d (now : Int) : calculate_date_range now "30d" = (now - 30 * 86400, now) := rfl

lemma cdr_90d (now : Int) : calculate_date_range now "90d" = (now - 90 * 86400, now) := rfl

lemma cdr_1y (now : Int) : calculate_date_range now "1y" = (now - 365 * 86400, now) := rfl

lemma cdr_allTime (now : Int) : calculate_date_range now "All Time" = (datetime_2013_04_28, now) := rfl

/-- The timeframe branch of get_token_data computes the same window as
utils.calculate_date_range, for every timeframe string. -/
lemma token_data_date_range_fst (now : Int) (t : String) :
    (token_data_date_range now t).1 = calculate_date_range now t := by
  unfold token_data_date_range calculate_date_range
  split_ifs <;> rfl

/-- C7: for every timeframe in the configured enumeration, the date
range has end_date equal to the current time and spans exactly the
documented window: 1, 7, 30, 90 and 365 days, while All Time starts at
the fixed date 2013-04-28 (epoch day 15823); the identical branch
inside api_service.get_token_data agrees with utils.calculate_date_range. -/
theorem date_range_windows (now : Int) :
    ((calculate_date_range now "24h").2 = now
      ∧ (calculate_date_range now "24h").2 - (calculate_date_range now "24h").1 = 1 * 86400)
    ∧ ((calculate_date_range now "7d").2 = now
      ∧ (calculate_date_range now "7d").2 - (calculate_date_range now "7d").1 = 7 * 86400)
    ∧ ((calculate_date_range now "30d").2 = now
      ∧ (calculate_date_range now "30d").2 - (calculate_date_range now "30d").1 = 30 * 86400)
    ∧ ((calculate_date_range now "90d").2 = now
      ∧ (calculate_date_range now "90d").2 - (calculate_date_range now "90d").1 = 90 * 86400)
    ∧ ((calculate_date_range now "1y").2 = now
      ∧ (calculate_date_range now "1y").2 - (calculate_date_range now "1y").1 = 365 * 86400)
    ∧ ((calculate_date_range now "All Time").2 = now
      ∧ (calculate_date_range now "All Time").1 = datetime_2013_04_28
      ∧ datetime_2013_04_28 = 15823 * 86400)
    ∧ (∀ t : String, (token_data_date_range now t).1 = calculate_date_range now t) := by
  refine ⟨⟨?_, ?_⟩, ⟨?_, ?_⟩, ⟨?_, ?_⟩, ⟨?_, ?_⟩, ⟨?_, ?_⟩, ⟨?_, ?_, ?_⟩, ?_⟩
  · rw [cdr_24h]
  · rw [cdr_24h]; omega
  · rw [cdr_7d]
  · rw [cdr_7d]; omega
  · rw [cdr_30d]
  · rw [cdr_30d]; omega
  · rw [cdr_90d]
  · rw [cdr_90d]; omega
  · rw [cdr_1y]
  · rw [cdr_1y]; omega
  · rw [cdr_allTime]
  · rw [cdr_allTime]
  · decide
  · exact fun t => token_data_date_range_fst now t

/-! ## C8: static token-id resolution -/

/-- C8: for every symbol whose uppercasing hits the static table, token
id resolution is independent of the coin-list endpoint response (hence
of the network), reports that the endpoint was not consulted, and
returns an id; being a pure function of the static table, two calls
with arbitrary (even different) network states agree. -/
theorem get_token_id_static_no_network (symbol : String)
    (coinList coinList2 : Option (List CoinEntry))
    (h : (symbol_to_id.find? (fun p => p.1 = pyUpper symbol)).isSome) :
    _get_token_id coinList symbol = _get_token_id coinList2 symbol
    ∧ (_get_token_id coinList symbol).2 = false
    ∧ (_get_token_id coinList symbol).1.isSome := by
  obtain ⟨p, hp⟩ := Option.isSome_iff_exists.mp h
  have e : ∀ cl : Option (List CoinEntry), _get_token_id cl symbol = (some p.2, false) := by
    intro cl
    unfold _get_token_id
    rw [hp]
  rw [e coinList, e coinList2]
  exact ⟨rfl, rfl, rfl⟩

/-- Witness for C8 at the lowercase symbol btc: the static table hit
makes both a failed and a successful coin-list state return bitcoin
without a network consultation. -/
theorem get_token_id_static_no_network_witness :
    ((symbol_to_id.find? (fun p => p.1 = pyUpper "btc")).isSome)
    ∧ (_get_token_id none "btc" = _get_token_id (some []) "btc"
      ∧ (_get_token_id none "btc").2 = false
      ∧ (_get_token_id none "btc").1.isSome) :=
  ⟨by decide, get_token_id_static_no_network "btc" none (some []) (by decide)⟩

/-! ## C9: forecast dispatch -/

/-- C9: predict_prices on a model_type outside ARIMA, LSTM, Prophet
raises ValueError naming the unknown model type; the result is
moreover independent of every forecasting oracle and of the series
(no backend invoked, no data read); the three valid names dispatch
exactly to the corresponding backend. -/
theorem predict_prices_dispatch
    (aF aS aF2 aS2 : List ℚ → Nat → List ℚ) (aI aI2 : List ℚ → List ℚ)
    (lp lp2 : List ℚ → Nat → List ℚ)
    (po po2 : List (Int × ℚ) → Nat → List ProphetRow)
    (data data2 : List (Int × ℚ)) (m : String) (n n2 : Nat)
    (h1 : m ≠ "ARIMA") (h2 : m ≠ "LSTM") (h3 : m ≠ "Prophet") :
    predict_prices aF aS aI lp po data m n = .error ("Unknown model type: " ++ m)
    ∧ predict_prices aF aS aI lp po data m n = predict_prices aF2 aS2 aI2 lp2 po2 data2 m n2
    ∧ predict_prices aF aS aI lp po data "ARIMA" n
        = .ok (predict_with_arima aF aS aI data n)
    ∧ predict_prices aF aS aI lp po data "LSTM" n
        = .ok (predict_with_lstm lp data n)
    ∧ predict_prices aF aS aI lp po data "Prophet" n
        = .ok (predict_with_prophet po data n) := by
  refine ⟨?_, ?_, rfl, rfl, rfl⟩
  · unfold predict_prices
    rw [if_neg h1, if_neg h2, if_neg h3]
  · unfold predict_prices
    rw [if_neg h1, if_neg h2, if_neg h3, if_neg h1, if_neg h2, if_neg h3]

/-- Witness for C9 at the unknown model name XGBoost with two different
oracle and data environments. -/
theorem predict_prices_dispatch_witness :
    (("XGBoost" : String) ≠ "ARIMA" ∧ ("XGBoost" : String) ≠ "LSTM"
      ∧ ("XGBoost" : String) ≠ "Prophet")
    ∧ predict_prices (fun _ _ => []) (fun _ _ => []) (fun _ => [])
        (fun _ _ => []) (fun _ _ => []) [(0, 1)] "XGBoost" 30
        = .error ("Unknown model type: " ++ "XGBoost") :=
  ⟨⟨by decide, by decide, by decide⟩,
    (predict_prices_dispatch (fun _ _ => []) (fun _ _ => []) (fun _ _ => [])
      (fun _ _ => []) (fun _ => []) (fun _ => []) (fun _ _ => []) (fun _ _ => [])
      (fun _ _ => []) (fun _ _ => []) [(0, 1)] [] "XGBoost" 30 7
      (by decide) (by decide) (by decide)).1⟩

/-! ## C3: retry policy of make_api_request -/

/-- runAttempts skips over a block of rate-limited (HTTP 429), non-final
attempts, accumulating one exponential-backoff sleep per skipped
attempt. -/
lemma runAttempts_skip (outcomes : Nat → ReqOutcome) (jit : Nat → ℚ)
    (retries : Nat) (b : ℚ) :
    ∀ (k a m : Nat) (sleeps : List ℚ),
      (∀ i, a ≤ i → i < a + k → outcomes i = .fail (some 429)) →
      (∀ i, a ≤ i → i < a + k → i ≠ retries - 1) →
      runAttempts outcomes jit retries b (List.range' a (k + m)) sleeps
        = runAttempts outcomes jit retries b (List.range' (a + k) m)
            (sleeps ++ (List.range' a k).map (fun i => b * 2 ^ i + jit i)) := by
  intro k
  induction k with
  | zero =>
    intro a m sleeps _ _
    simp [List.range']
  | succ k ih =>
    intro a m sleeps h429 hnl
    have ha : outcomes a = .fail (some 429) := h429 a (le_refl a) (by omega)
    have hna : a ≠ retries - 1 := hnl a (le_refl a) (by omega)
    have hk : k + 1 + m = (k + m) + 1 := by omega
    rw [hk, List.range'_succ a (k + m) 1]
    have step : runAttempts outcomes jit retries b (a :: List.range' (a + 1) (k + m)) sleeps
        = runAttempts outcomes jit retries b (List.range' (a + 1) (k + m))
            (sleeps ++ [b * 2 ^ a + jit a]) := by
      simp only [runAttempts, ha]
      rw [if_neg hna]
      simp
    rw [step, ih (a + 1) m (sleeps ++ [b * 2 ^ a + jit a])
      (fun i h1 h2 => h429 i (by omega) (by omega))
      (fun i h1 h2 => hnl i (by omega) (by omega))]
    rw [show a + (k + 1) = a + 1 + k from by omega,
      List.range'_succ a k 1, List.map_cons, List.append_assoc, List.singleton_append]

/-- C3: retry policy of make_api_request with retries = n. With n
consecutive rate-limit failures the final exception propagates after
the n-th attempt, having slept backoff * 2 ^ i + jitter(i) after each
non-final attempt i; a failure whose status is not 429 (including a
missing response) re-raises immediately, performing no further
attempts and no new sleep; a success after k rate-limited attempts
returns the payload with exactly the k backoff sleeps. -/
theorem make_api_request_retry_policy (outcomes : Nat → ReqOutcome)
    (jit : Nat → ℚ) (n k : Nat) (b : ℚ) (st : Option Nat) (v : Nat) :
    ((∀ i, i < n → outcomes i = .fail (some 429)) → 1 ≤ n →
      make_api_request outcomes jit n b
        = (.raised (some 429), (List.range (n - 1)).map (fun i => b * 2 ^ i + jit i)))
    ∧ ((∀ i, i < k → outcomes i = .fail (some 429)) → outcomes k = .fail st →
      st ≠ some 429 → k < n - 1 →
      make_api_request outcomes jit n b
        = (.raised st, (List.range k).map (fun i => b * 2 ^ i + jit i)))
    ∧ ((∀ i, i < k → outcomes i = .fail (some 429)) → outcomes k = .ok v → k < n →
      make_api_request outcomes jit n b
        = (.json v, (List.range k).map (fun i => b * 2 ^ i + jit i))) := by
  refine ⟨?_, ?_, ?_⟩
  · intro h429 hn
    unfold make_api_request
    have hr : List.range n = List.range' 0 ((n - 1) + 1) := by
      rw [List.range_eq_range']
      congr 1
      omega
    rw [hr, runAttempts_skip outcomes jit n b (n - 1) 0 1 []
      (fun i h1 h2 => h429 i (by omega)) (fun i h1 h2 => by omega)]
    have h1 : List.range' (0 + (n - 1)) 1 = [n - 1] := by simp [List.range']
    rw [h1]
    have ha : outcomes (n - 1) = .fail (some 429) := h429 (n - 1) (by omega)
    simp only [runAttempts, ha]
    simp [List.range_eq_range']
  · intro h429 hk hst hkn
    unfold make_api_request
    have hr : List.range n = List.range' 0 (k + (n - k)) := by
      rw [List.range_eq_range']
      congr 1
      omega
    rw [hr, runAttempts_skip outcomes jit n b k 0 (n - k) []
      (fun i h1 h2 => h429 i (by omega)) (fun i h1 h2 => by omega)]
    have h2 : List.range' (0 + k) (n - k) = k :: List.range' (k + 1) (n - k - 1) := by
      rw [show n - k = (n - k - 1) + 1 from by omega, List.range'_succ]
      simp
    rw [h2]
    simp only [runAttempts, hk]
    rw [if_neg (show ¬ k = n - 1 from by omega), if_neg (show ¬ st = some 429 from hst)]
    simp [List.range_eq_range']
  · intro h429 hk hkn
    unfold make_api_request
    have hr : List.range n = List.range' 0 (k + (n - k)) := by
      rw [List.range_eq_range']
      congr 1
      omega
    rw [hr, runAttempts_skip outcomes jit n b k 0 (n - k) []
      (fun i h1 h2 => h429 i (by omega)) (fun i h1 h2 => by omega)]
    have h2 : List.range' (0 + k) (n - k) = k :: List.range' (k + 1) (n - k - 1) := by
      rw [show n - k = (n - k - 1) + 1 from by omega, List.range'_succ]
      simp
    rw [h2]
    simp only [runAttempts, hk]
    simp [List.range_eq_range']

/-- Witness for C3 with retries = 3 and backoff 1/2: all-429 runs raise
after three attempts with sleeps 1/2 * 2 ^ i + jitter; a 500 after one
429 re-raises with a single sleep; a success after two 429s returns
the payload. -/
theorem make_api_request_retry_policy_witness :
    ((∀ i, i < 3 → (fun _ => ReqOutcome.fail (some 429)) i = ReqOutcome.fail (some 429))
      ∧ make_api_request (fun _ => ReqOutcome.fail (some 429)) (fun _ => 1 / 2) 3 (1 / 2)
        = (.raised (some 429), (List.range (3 - 1)).map (fun i => 1 / 2 * 2 ^ i + (fun _ => (1 : ℚ) / 2) i)))
    ∧ make_api_request (fun i => if i = 0 then ReqOutcome.fail (some 429) else ReqOutcome.fail (some 500))
        (fun _ => 1 / 2) 3 (1 / 2)
        = (.raised (some 500), (List.range 1).map (fun i => 1 / 2 * 2 ^ i + (fun _ => (1 : ℚ) / 2) i))
    ∧ make_api_request (fun i => if i < 2 then ReqOutcome.fail (some 429) else ReqOutcome.ok 7)
        (fun _ => 1 / 2) 3 (1 / 2)
        = (.json 7, (List.range 2).map (fun i => 1 / 2 * 2 ^ i + (fun _ => (1 : ℚ) / 2) i)) :=
  ⟨⟨fun _ _ => rfl,
    (make_api_request_retry_policy (fun _ => ReqOutcome.fail (some 429))
      (fun _ => 1 / 2) 3 0 (1 / 2) none 0).1 (fun _ _ => rfl) (by omega)⟩,
    (make_api_request_retry_policy
      (fun i => if i = 0 then ReqOutcome.fail (some 429) else ReqOutcome.fail (some 500))
      (fun _ => 1 / 2) 3 1 (1 / 2) (some 500) 0).2.1
      (by decide) (by decide) (by decide) (by omega),
    (make_api_request_retry_policy
      (fun i => if i < 2 then ReqOutcome.fail (some 429) else ReqOutcome.ok 7)
      (fun _ => 1 / 2) 3 2 (1 / 2) none 7).2.2
      (by decide) (by decide) (by omega)⟩

/-! ## C6: rating extraction -/

/-- C6: extract_rating returns the number matched by the slash-or-out-
of-10 pattern when one occurs; otherwise the value matched by the
rating pattern on the lowercased text whenever it lies within 0..10;
otherwise exactly 5.0. Concrete spec instances: a text containing
7.5/10 yields 7.5, an out-of-10 phrasing yields its number, and a text
with no numeric pattern yields 5.0. -/
theorem extract_rating_cases (s : String) (q x : ℚ) :
    (searchPat1 s.data = some q → extract_rating s = q)
    ∧ (searchPat1 s.data = none → searchPat2 (pyLower s).data = some x →
        0 ≤ x → x ≤ 10 → extract_rating s = x)
    ∧ (searchPat1 s.data = none → searchPat2 (pyLower s).data = none →
        extract_rating s = 5)
    ∧ extract_rating "The whitepaper merits 7.5/10 in our assessment" = 15 / 2
    ∧ extract_rating "I would give this project 8 out of 10" = 8
    ∧ extract_rating "no numeric pattern to be found" = 5 := by
  refine ⟨?_, ?_, ?_, by with_unfolding_all decide, by with_unfolding_all decide,
    by with_unfolding_all decide⟩
  · intro h1
    unfold extract_rating
    rw [h1]
  · intro h1 h2 hx0 hx10
    unfold extract_rating
    rw [h1, h2]
    exact if_pos ⟨hx0, hx10⟩
  · intro h1 h2
    unfold extract_rating
    rw [h1, h2]

/-- Witness for C6: the three conditional branches instantiated at
concrete texts exercising each case, including an out-of-range rating
value falling back to 5.0. -/
theorem extract_rating_cases_witness :
    (searchPat1 ("scores 9/10" : String).data = some 9
      ∧ extract_rating "scores 9/10" = 9)
    ∧ (searchPat1 ("given a rating of 6.5 overall" : String).data = none
      ∧ searchPat2 (pyLower "given a rating of 6.5 overall").data = some (13 / 2)
      ∧ extract_rating "given a rating of 6.5 overall" = 13 / 2)
    ∧ (searchPat1 ("Rating given: 12 stars" : String).data = none
      ∧ searchPat2 (pyLower "Rating given: 12 stars").data = some 12
      ∧ ¬ ((12 : ℚ) ≤ 10)
      ∧ extract_rating "Rating given: 12 stars" = 5)
    ∧ (searchPat1 ("nothing here" : String).data = none
      ∧ searchPat2 (pyLower "nothing here").data = none
      ∧ extract_rating "nothing here" = 5) := by
  refine ⟨⟨by with_unfolding_all decide, ?_⟩,
    ⟨by with_unfolding_all decide, by with_unfolding_all decide, ?_⟩,
    ⟨by with_unfolding_all decide, by with_unfolding_all decide, by norm_num, ?_⟩,
    ⟨by with_unfolding_all decide, by with_unfolding_all decide, ?_⟩⟩
  · exact (extract_rating_cases "scores 9/10" 9 0).1 (by with_unfolding_all decide)
  · exact (extract_rating_cases "given a rating of 6.5 overall" 0 (13 / 2)).2.1
      (by with_unfolding_all decide) (by with_unfolding_all decide)
      (by norm_num) (by norm_num)
  · with_unfolding_all decide
  · exact (extract_rating_cases "nothing here" 0 0).2.2.1
      (by with_unfolding_all decide) (by with_unfolding_all decide)

/-! ## C1: the token_data write path appends instead of upserting -/

/-- C1 (code bug evaluation): saving the key (BTC, 2024-01-01) twice
with prices 100 then 200 leaves exactly one row for that key, but that
row holds the FIRST price, 100, not the second: the duplicate insert
raises IntegrityError inside to_sql, save_data swallows it, and the
second value is lost. The claimed upsert invariant (row holds the
second value) is violated while the other save_* functions use INSERT
OR REPLACE, marking the append as a slip. -/
theorem save_data_duplicate_key_keeps_first_value :
    save_data_token (save_data_token [] [⟨"BTC", "2024-01-01", 100, 1000, 10⟩])
        [⟨"BTC", "2024-01-01", 200, 1000, 10⟩]
      = [⟨"BTC", "2024-01-01", 100, 1000, 10⟩]
    ∧ (save_data_token (save_data_token [] [⟨"BTC", "2024-01-01", 100, 1000, 10⟩])
        [⟨"BTC", "2024-01-01", 200, 1000, 10⟩]).map TokenRow.price = [100]
    ∧ ((100 : ℚ) ≠ 200) := by
  refine ⟨by decide, by decide, by norm_num⟩

/-! ## C10: get_historical_data swallows every failure -/

/-- C10: get_historical_data never lets an exception escape: the result
is always either the (None, None) pair or a fully populated pair; a
failing market query, a failing token enumeration, or a failing
per-token query each yield (None, None); when everything succeeds both
components are populated. -/
theorem get_historical_data_swallows_errors
    (runQuery : String → List String → Except String (List (List ℚ)))
    (distinctTokens : Except String (List String))
    (start_date end_date : Option String) (e : String)
    (market : List (List ℚ)) (toks : List String)
    (td : List (String × List (List ℚ))) :
    (get_historical_data runQuery distinctTokens start_date end_date = (none, none)
      ∨ ∃ m t, get_historical_data runQuery distinctTokens start_date end_date
          = (some m, some t))
    ∧ (runQuery ("SELECT * FROM market_data"
          ++ (dateFilterClause start_date end_date).1 ++ " ORDER BY date")
          (dateFilterClause start_date end_date).2 = .error e →
        get_historical_data runQuery distinctTokens start_date end_date = (none, none))
    ∧ (runQuery ("SELECT * FROM market_data"
          ++ (dateFilterClause start_date end_date).1 ++ " ORDER BY date")
          (dateFilterClause start_date end_date).2 = .ok market →
        distinctTokens = .error e →
        get_historical_data runQuery distinctTokens start_date end_date = (none, none))
    ∧ (runQuery ("SELECT * FROM market_data"
          ++ (dateFilterClause start_date end_date).1 ++ " ORDER BY date")
          (dateFilterClause start_date end_date).2 = .ok market →
        distinctTokens = .ok toks →
        toks.mapM (fun tok => Except.map (fun rows => (tok, rows))
          (runQuery
            ("SELECT * FROM token_data"
              ++ tokenFilterClause (dateFilterClause start_date end_date).1
              ++ " ORDER BY date")
            (tok :: (dateFilterClause start_date end_date).2))) = .ok td →
        get_historical_data runQuery distinctTokens start_date end_date
          = (some market, some td)) := by
  refine ⟨?_, ?_, ?_, ?_⟩
  · unfold get_historical_data
    cases hq : runQuery ("SELECT * FROM market_data"
        ++ (dateFilterClause start_date end_date).1 ++ " ORDER BY date")
        (dateFilterClause start_date end_date).2 with
    | error err => left; simp [Except.bind, hq]
    | ok m =>
      cases ht : distinctTokens with
      | error err => left; simp [Except.bind, hq, ht]
      | ok ts =>
        cases hm : ts.mapM (fun tok => Except.map (fun rows => (tok, rows))
            (runQuery
              ("SELECT * FROM token_data"
                ++ tokenFilterClause (dateFilterClause start_date end_date).1
                ++ " ORDER BY date")
              (tok :: (dateFilterClause start_date end_date).2))) with
        | error err =>
          left
          simp only [List.mapM, Except.map] at hm
          simp [Except.bind, Except.map, hq, ht, hm]
        | ok rows =>
          right
          refine ⟨m, rows, ?_⟩
          simp only [List.mapM, Except.map] at hm
          simp [Except.bind, Except.map, hq, ht, hm]
  · intro hq
    unfold get_historical_data
    simp [Except.bind, hq]
  · intro hq ht
    unfold get_historical_data
    simp [Except.bind, hq, ht]
  · intro hq ht hm
    unfold get_historical_data
    simp only [List.mapM, Except.map] at hm
    simp [Except.bind, Except.map, hq, ht, hm]

/-- Witness for C10: a database whose every query raises lands in the
except branch, and the caller receives the (None, None) pair. -/
theorem get_historical_data_swallows_errors_witness :
    ((fun (_ : String) (_ : List String) =>
        (Except.error "no such table" : Except String (List (List ℚ))))
      ("SELECT * FROM market_data" ++ (dateFilterClause (some "2024-01-01") none).1
        ++ " ORDER BY date")
      (dateFilterClause (some "2024-01-01") none).2 = .error "no such table")
    ∧ get_historical_data (fun _ _ => .error "no such table") (.error "x")
        (some "2024-01-01") none = (none, none) :=
  ⟨rfl,
    (get_historical_data_swallows_errors (fun _ _ => .error "no such table")
      (.error "x") (some "2024-01-01") none "no such table" [] [] []).2.1 rfl⟩

/-! ## C2: every external failure degrades to a fully-shaped mock result -/

/-- Rounding to one decimal is monotone. -/
lemma round1_mono {a b : ℚ} (h : a ≤ b) : round1 a ≤ round1 b := by
  unfold round1
  have hf : (⌊a * 10 + 1 / 2⌋ : ℤ) ≤ ⌊b * 10 + 1 / 2⌋ := Int.floor_le_floor (by linarith)
  have : ((⌊a * 10 + 1 / 2⌋ : ℤ) : ℚ) ≤ ((⌊b * 10 + 1 / 2⌋ : ℤ) : ℚ) := by exact_mod_cast hf
  exact div_le_div_of_nonneg_right this (by norm_num) |>.trans_eq rfl

/-- C2: with no provider credentials (every network oracle failed and an
empty OPENAI_API_KEY), requesting market data, token data and a
whitepaper analysis never escapes to the caller as an exception: each
call returns its synthetic fallback, whose structure carries all the
required fields - four 30-point series for the market
(date/market_cap/volume/btc_dominance), four 30-point series for the
token (date/price/market_cap/volume), and an analysis record with the
four texts, the summary and four ratings, each rating staying inside
the documented uniform bounds of its dimension. -/
theorem no_credentials_full_fallback
    (coinList : Option (List CoinEntry)) (now : ℚ) (token : String)
    (u v w mu mv mb variation : Nat → ℚ) (globalRes : Option (ℚ × ℚ))
    (llmTexts : Option (String × String × String × String × String))
    (project : String) (u1 u2 u3 u4 : ℚ)
    (h1a : 5 ≤ u1) (h1b : u1 ≤ 17 / 2)
    (h2a : 5 ≤ u2) (h2b : u2 ≤ 9)
    (h3a : 4 ≤ u3) (h3b : u3 ≤ 15 / 2)
    (h4a : 11 / 2 ≤ u4) (h4b : u4 ≤ 17 / 2) :
    (get_market_data none globalRes variation now mu mv mb = mock_market_data now mu mv mb
      ∧ (mock_market_data now mu mv mb).date.length = 30
      ∧ (mock_market_data now mu mv mb).market_cap.length = 30
      ∧ (mock_market_data now mu mv mb).volume.length = 30
      ∧ (mock_market_data now mu mv mb).btc_dominance.length = 30)
    ∧ (get_token_data coinList none now token u v w = mock_token_data now token u v w
      ∧ (mock_token_data now token u v w).date.length = 30
      ∧ (mock_token_data now token u v w).price.length = 30
      ∧ (mock_token_data now token u v w).market_cap.length = 30
      ∧ (mock_token_data now token u v w).volume.length = 30)
    ∧ (analyze_whitepaper "" llmTexts project u1 u2 u3 u4
        = generate_mock_analysis project u1 u2 u3 u4
      ∧ (5 ≤ (analyze_whitepaper "" llmTexts project u1 u2 u3 u4).security_rating
        ∧ (analyze_whitepaper "" llmTexts project u1 u2 u3 u4).security_rating ≤ 17 / 2)
      ∧ (5 ≤ (analyze_whitepaper "" llmTexts project u1 u2 u3 u4).growth_rating
        ∧ (analyze_whitepaper "" llmTexts project u1 u2 u3 u4).growth_rating ≤ 9)
      ∧ (4 ≤ (analyze_whitepaper "" llmTexts project u1 u2 u3 u4).risk_rating
        ∧ (analyze_whitepaper "" llmTexts project u1 u2 u3 u4).risk_rating ≤ 15 / 2)
      ∧ (11 / 2 ≤ (analyze_whitepaper "" llmTexts project u1 u2 u3 u4).tech_rating
        ∧ (analyze_whitepaper "" llmTexts project u1 u2 u3 u4).tech_rating ≤ 17 / 2)) := by
  refine ⟨⟨rfl, ?_, ?_, ?_, ?_⟩, ⟨?_, ?_, ?_, ?_, ?_⟩, ?_⟩
  · simp only [mock_market_data]; rw [List.length_map, List.length_range]
  · simp only [mock_market_data]; rw [List.length_map, List.length_range]
  · simp only [mock_market_data]; rw [List.length_map, List.length_range]
  · simp only [mock_market_data]; rw [List.length_map, List.length_range]
  · cases h : (_get_token_id coinList token).1 with
    | none => simp [get_token_data, h]
    | some tid => simp [get_token_data, h]
  · simp only [mock_token_data]; rw [List.length_map, List.length_range]
  · simp only [mock_token_data]; rw [List.length_map, List.length_range]
  · simp only [mock_token_data]; rw [List.length_map, List.length_range]
  · simp only [mock_token_data]; rw [List.length_map, List.length_range]
  · have he : analyze_whitepaper "" llmTexts project u1 u2 u3 u4
        = generate_mock_analysis project u1 u2 u3 u4 := rfl
    rw [he]
    have hsec : (generate_mock_analysis project u1 u2 u3 u4).security_rating = round1 u1 := rfl
    have hgro : (generate_mock_analysis project u1 u2 u3 u4).growth_rating = round1 u2 := rfl
    have hris : (generate_mock_analysis project u1 u2 u3 u4).risk_rating = round1 u3 := rfl
    have htec : (generate_mock_analysis project u1 u2 u3 u4).tech_rating = round1 u4 := rfl
    refine ⟨rfl, ?_, ?_, ?_, ?_⟩
    · rw [hsec]
      exact ⟨le_trans (by norm_num [round1]) (round1_mono h1a),
        le_trans (round1_mono h1b) (by norm_num [round1])⟩
    · rw [hgro]
      exact ⟨le_trans (by norm_num [round1]) (round1_mono h2a),
        le_trans (round1_mono h2b) (by norm_num [round1])⟩
    · rw [hris]
      exact ⟨le_trans (by norm_num [round1]) (round1_mono h3a),
        le_trans (round1_mono h3b) (by norm_num [round1])⟩
    · rw [htec]
      exact ⟨le_trans (by norm_num [round1]) (round1_mono h4a),
        le_trans (round1_mono h4b) (by norm_num [round1])⟩

/-- Witness for C2: concrete uniform draws 6, 7, 5, 6 within their
documented bounds; the failed token fetch returns the 30-point mock
series and the credential-less analysis carries an in-bounds security
rating. -/
theorem no_credentials_full_fallback_witness :
    ((5 : ℚ) ≤ 6 ∧ (6 : ℚ) ≤ 17 / 2 ∧ (5 : ℚ) ≤ 7 ∧ (7 : ℚ) ≤ 9
      ∧ (4 : ℚ) ≤ 5 ∧ (5 : ℚ) ≤ 15 / 2 ∧ (11 : ℚ) / 2 ≤ 6 ∧ (6 : ℚ) ≤ 17 / 2)
    ∧ (get_token_data none none 0 "BTC" (fun _ => 0) (fun _ => 0) (fun _ => 0)
        = mock_token_data 0 "BTC" (fun _ => 0) (fun _ => 0) (fun _ => 0))
    ∧ (5 ≤ (analyze_whitepaper "" none "Foo" 6 7 5 6).security_rating
      ∧ (analyze_whitepaper "" none "Foo" 6 7 5 6).security_rating ≤ 17 / 2) :=
  ⟨by norm_num,
    (no_credentials_full_fallback none 0 "BTC" (fun _ => 0) (fun _ => 0) (fun _ => 0)
      (fun _ => 0) (fun _ => 0) (fun _ => 0) (fun _ => 0) none none "Foo" 6 7 5 6
      (by norm_num) (by norm_num) (by norm_num) (by norm_num)
      (by norm_num) (by norm_num) (by norm_num) (by norm_num)).2.1.1,
    (no_credentials_full_fallback none 0 "BTC" (fun _ => 0) (fun _ => 0) (fun _ => 0)
      (fun _ => 0) (fun _ => 0) (fun _ => 0) (fun _ => 0) none none "Foo" 6 7 5 6
      (by norm_num) (by norm_num) (by norm_num) (by norm_num)
      (by norm_num) (by norm_num) (by norm_num) (by norm_num)).2.2.2.1⟩

/-! ## C5: forecast horizon, dates and confidence-bound clipping -/

/-- The last historical date of a series, as the predict_with_*
functions compute it: sort by date, take the final date. -/
def lastHistoricalDate (data : List (Int × ℚ)) : Int :=
  ((data.insertionSort (fun a b => a.1 ≤ b.1)).map Prod.fst).getLastD 0

/-- C5 counterexample: the Prophet path returns the forecast frame
bounds unchanged, so when the fitted model produces a negative
yhat_lower (as Prophet does for volatile price series) the returned
lower_bound is negative: with a nonempty price series, horizon 30 and
a frame whose yhat_lower is -1 everywhere, the first returned lower
bound is -1 < 0, refuting the claim that lower_bound is never negative
for every model. -/
theorem prophet_lower_bound_not_clipped :
    (predict_with_prophet
        (fun _ n => (List.range n).map (fun (i : Nat) => ⟨(i : Int), 1, 2, -1⟩))
        [(0, 100)] 30).lower_bound.getD 0 0 = -1
    ∧ ((-1 : ℚ) < 0)
    ∧ (predict_with_prophet
        (fun _ n => (List.range n).map (fun (i : Nat) => ⟨(i : Int), 1, 2, -1⟩))
        [(0, 100)] 30).lower_bound.length = 30
    ∧ ([((0 : Int), (100 : ℚ))] ≠ []) := by
  refine ⟨by with_unfolding_all decide, by norm_num, by with_unfolding_all decide, by simp⟩

/-- Every element of the clamped ARIMA lower-bound column is
nonnegative. -/
lemma zipWith_clamped_nonneg (l1 l2 : List ℚ) :
    ∀ x ∈ List.zipWith (fun f s => max (f - 49 / 25 * s) 0) l1 l2, 0 ≤ x := by
  induction l1 generalizing l2 with
  | nil => simp
  | cons a t ih =>
    cases l2 with
    | nil => simp
    | cons b t2 =>
      intro x hx
      rcases List.mem_cons.mp hx with h | h
      · rw [h]
        exact le_max_right _ _
      · exact ih t2 x h

lemma arima_date_eq (aF aS : List ℚ → Nat → List ℚ) (aI : List ℚ → List ℚ)
    (data : List (Int × ℚ)) (n : Nat) :
    (predict_with_arima aF aS aI data n).date
      = (List.range n).map (fun (i : Nat) => lastHistoricalDate data + timedeltaDays ((i : Int) + 1)) := rfl

lemma lstm_date_eq (lp : List ℚ → Nat → List ℚ) (data : List (Int × ℚ)) (n : Nat) :
    (predict_with_lstm lp data n).date
      = (List.range n).map (fun (i : Nat) => lastHistoricalDate data + timedeltaDays ((i : Int) + 1)) := rfl

/-- The forecast date axis is strictly increasing. -/
lemma forecast_dates_strict_mono (c : Int) (n : Nat) :
    ((List.range n).map (fun (i : Nat) => c + timedeltaDays ((i : Int) + 1))).Pairwise (· < ·) := by
  refine List.Pairwise.map _ ?_ (List.pairwise_lt_range n)
  intro a b hab
  unfold timedeltaDays
  omega

/-- C5 amended: horizon n with a nonempty series gives an ARIMA and an
LSTM result with exactly n forecast points (given the library contract
that the fitted models return n values), whose dates are strictly
increasing starting the day after the last historical date; the ARIMA
lower bound is clamped nonnegative by np.maximum. The Prophet result is
a pass-through of the last n rows of the library forecast frame, its
bounds unchanged (hence possibly negative); the LSTM bounds are the
symmetric 10 percent band, also unclamped. -/
theorem forecast_horizon_and_bounds
    (aF aS : List ℚ → Nat → List ℚ) (aI : List ℚ → List ℚ)
    (lp : List ℚ → Nat → List ℚ) (po : List (Int × ℚ) → Nat → List ProphetRow)
    (data : List (Int × ℚ)) (n : Nat)
    (hdata : data ≠ []) (hn : 1 ≤ n)
    (hlenF : ∀ ps, (aF ps n).length = n)
    (hlenS : ∀ ps, (aS ps n).length = n)
    (hlenL : ∀ ps, (lp ps n).length = n) :
    ((predict_with_arima aF aS aI data n).date.length = n
      ∧ (predict_with_arima aF aS aI data n).date.Pairwise (· < ·)
      ∧ (predict_with_arima aF aS aI data n).date.head?
          = some (lastHistoricalDate data + 86400)
      ∧ (predict_with_arima aF aS aI data n).predicted_price.length = n
      ∧ (predict_with_arima aF aS aI data n).lower_bound.length = n
      ∧ (predict_with_arima aF aS aI data n).upper_bound.length = n
      ∧ (∀ x ∈ (predict_with_arima aF aS aI data n).lower_bound, 0 ≤ x))
    ∧ ((predict_with_lstm lp data n).date.length = n
      ∧ (predict_with_lstm lp data n).date.Pairwise (· < ·)
      ∧ (predict_with_lstm lp data n).date.head?
          = some (lastHistoricalDate data + 86400)
      ∧ (predict_with_lstm lp data n).predicted_price.length = n
      ∧ (predict_with_lstm lp data n).lower_bound.length = n
      ∧ (predict_with_lstm lp data n).upper_bound.length = n)
    ∧ ((predict_with_prophet po data n).lower_bound
        = ((po (data.insertionSort (fun a b => a.1 ≤ b.1)) n).drop
            ((po (data.insertionSort (fun a b => a.1 ≤ b.1)) n).length - n)).map
          ProphetRow.yhat_lower
      ∧ (predict_with_prophet po data n).upper_bound
        = ((po (data.insertionSort (fun a b => a.1 ≤ b.1)) n).drop
            ((po (data.insertionSort (fun a b => a.1 ≤ b.1)) n).length - n)).map
          ProphetRow.yhat_upper) := by
  refine ⟨⟨?_, ?_, ?_, ?_, ?_, ?_, ?_⟩, ⟨?_, ?_, ?_, ?_, ?_, ?_⟩, rfl, rfl⟩
  · rw [arima_date_eq]
    simp
  · rw [arima_date_eq]
    exact forecast_dates_strict_mono _ n
  · rw [arima_date_eq, head?_range_map _ n (by omega)]
    simp [timedeltaDays]
  · exact hlenF _
  · show (List.zipWith _ (aF _ n) (aS _ n)).length = n
    rw [List.length_zipWith, hlenF, hlenS]
    omega
  · show (List.zipWith _ (aF _ n) (aS _ n)).length = n
    rw [List.length_zipWith, hlenF, hlenS]
    omega
  · exact zipWith_clamped_nonneg _ _
  · rw [lstm_date_eq]
    simp
  · rw [lstm_date_eq]
    exact forecast_dates_strict_mono _ n
  · rw [lstm_date_eq, head?_range_map _ n (by omega)]
    simp [timedeltaDays]
  · show ((lp _ n).map _).length = n
    rw [List.length_map, hlenL]
  · show (((lp _ n).map _).map _).length = n
    rw [List.length_map, List.length_map, hlenL]
  · show (((lp _ n).map _).map _).length = n
    rw [List.length_map, List.length_map, hlenL]

/-- Witness for C5 at a one-point series, horizon 30 and oracles
returning 30 constant values: the ARIMA date axis has 30 points and the
clamped ARIMA lower bound is nonnegative everywhere. -/
theorem forecast_horizon_and_bounds_witness :
    (([((0 : Int), (5 : ℚ))] : List (Int × ℚ)) ≠ [] ∧ (1 : Nat) ≤ 30
      ∧ (∀ ps : List ℚ, ((fun (_ : List ℚ) (m : Nat) => List.replicate m (10 : ℚ)) ps 30).length = 30)
      ∧ (∀ ps : List ℚ, ((fun (_ : List ℚ) (m : Nat) => List.replicate m (2 : ℚ)) ps 30).length = 30)
      ∧ (∀ ps : List ℚ, ((fun (_ : List ℚ) (m : Nat) => List.replicate m ((1 : ℚ) / 2)) ps 30).length = 30))
    ∧ (predict_with_arima (fun _ m => List.replicate m 10) (fun _ m => List.replicate m 2)
        (fun _ => []) [(0, 5)] 30).date.length = 30
    ∧ (∀ x ∈ (predict_with_arima (fun _ m => List.replicate m 10) (fun _ m => List.replicate m 2)
        (fun _ => []) [(0, 5)] 30).lower_bound, 0 ≤ x) :=
  ⟨⟨by simp, by omega, fun _ => by simp, fun _ => by simp, fun _ => by simp⟩,
    (forecast_horizon_and_bounds (fun _ m => List.replicate m 10)
      (fun _ m => List.replicate m 2) (fun _ => []) (fun _ m => List.replicate m (1 / 2))
      (fun _ _ => []) [(0, 5)] 30 (by simp) (by omega)
      (fun _ => by simp) (fun _ => by simp) (fun _ => by simp)).1.1,
    (forecast_horizon_and_bounds (fun _ m => List.replicate m 10)
      (fun _ m => List.replicate m 2) (fun _ => []) (fun _ m => List.replicate m (1 / 2))
      (fun _ _ => []) [(0, 5)] 30 (by simp) (by omega)
      (fun _ => by simp) (fun _ => by simp) (fun _ => by simp)).1.2.2.2.2.2.2⟩

/-! ## C4: normalizer non-null derived columns and the unguarded division -/

lemma length_bfill (xs : List PVal) : (bfill xs).length = xs.length := by
  induction xs with
  | nil => rfl
  | cons a t ih => simp [bfill, ih]

lemma length_pctChange100 (xs : List ℚ) : (pctChange100 xs).length = xs.length := by
  simp [pctChange100]

lemma length_rollingMean (w : Nat) (xs : List ℚ) :
    (rollingMean w xs).length = xs.length := by
  simp [rollingMean]

lemma length_rollingStd (sqrtQ : ℚ → ℚ) (w : Nat) (xs : List PVal) :
    (rollingStd sqrtQ w xs).length = xs.length := by
  simp [rollingStd]

/-- Back-fill never introduces NaN and removes every NaN as long as the
final cell of the column is defined. -/
lemma bfill_ne_nan (xs : List PVal) :
    (∃ v, xs.getLast? = some v ∧ v ≠ PVal.nan) → ∀ w ∈ bfill xs, w ≠ PVal.nan := by
  induction xs with
  | nil =>
    rintro ⟨v, hv, _⟩ w hw
    simp at hv
  | cons a t ih =>
    rintro ⟨v, hv, hvn⟩ w hw
    cases t with
    | nil =>
      simp at hv
      subst hv
      simp only [bfill, List.mem_singleton] at hw
      rw [if_neg hvn] at hw
      rw [hw]
      exact hvn
    | cons b t2 =>
      have hlast : (b :: t2).getLast? = some v := by
        rw [← List.getLast?_cons_cons]
        exact hv
      have ihm := ih ⟨v, hlast, hvn⟩
      rw [show bfill (a :: b :: t2)
          = (if a = PVal.nan then (bfill (b :: t2)).headD PVal.nan else a)
            :: bfill (b :: t2) from rfl] at hw
      rcases List.mem_cons.mp hw with h | h
      · rw [h]
        by_cases ha : a = PVal.nan
        · rw [if_pos ha]
          have hne : bfill (b :: t2) ≠ [] := by
            intro hc
            have hl := length_bfill (b :: t2)
            rw [hc] at hl
            simp at hl
          obtain ⟨c, l2, hc⟩ := List.exists_cons_of_ne_nil hne
          rw [hc]
          exact ihm c (by rw [hc]; exact List.mem_cons_self c l2)
        · rw [if_neg ha]
          exact ha
      · exact ihm w h

/-- When the column has no NaN at all, back-fill keeps it NaN-free. -/
lemma bfill_ne_nan_of_all (xs : List PVal) (h : ∀ v ∈ xs, v ≠ PVal.nan) :
    ∀ w ∈ bfill xs, w ≠ PVal.nan := by
  induction xs with
  | nil => intro w hw; simp [bfill] at hw
  | cons a t ih =>
    intro w hw
    have ha := h a (List.mem_cons_self a t)
    rw [show bfill (a :: t)
        = (if a = PVal.nan then (bfill t).headD PVal.nan else a) :: bfill t from rfl,
      if_neg ha] at hw
    rcases List.mem_cons.mp hw with hh | hh
    · rw [hh]; exact ha
    · exact ih (fun v hv => h v (List.mem_cons_of_mem a hv)) w hh

/-- A window of finite cells passes allVals. -/
lemma allVals_isSome (l : List PVal) (h : ∀ v ∈ l, ∃ q, v = PVal.val q) :
    ∃ qs, allVals l = some qs := by
  induction l with
  | nil => exact ⟨[], rfl⟩
  | cons a t ih =>
    obtain ⟨q, rfl⟩ := h a (List.mem_cons_self a t)
    obtain ⟨qs, hqs⟩ := ih (fun v hv => h v (List.mem_cons_of_mem _ hv))
    exact ⟨q :: qs, by simp [allVals, hqs]⟩

lemma pctChange100_getElem (xs : List ℚ) (i : Nat) (hi : i < (pctChange100 xs).length) :
    (pctChange100 xs)[i]
      = if i = 0 then PVal.nan else pct100 (xs.getD (i - 1) 0) (xs.getD i 0) := by
  simp [pctChange100]

/-- The last cell of pct_change is finite when the prices are positive. -/
lemma pctChange100_getLast_ne_nan (xs : List ℚ) (h2 : 2 ≤ xs.length)
    (hpos : ∀ p ∈ xs, 0 < p) :
    ∃ v, (pctChange100 xs).getLast? = some v ∧ v ≠ PVal.nan := by
  have h0 : 0 < xs.length := by omega
  simp only [pctChange100]
  rw [getLast?_range_map _ _ h0]
  refine ⟨_, rfl, ?_⟩
  rw [if_neg (by omega)]
  have hprev : (0 : ℚ) < xs.getD (xs.length - 1 - 1) 0 := by
    rw [List.getD_eq_getElem xs 0 (by omega)]
    exact hpos _ (List.getElem_mem ..)
  simp only [pct100]
  rw [if_pos hprev.ne']
  simp

/-- The last w-or-more cells of pct_change over positive prices are all
finite as soon as the series has at least 11 points. -/
lemma pctChange100_drop_val (xs : List ℚ) (h11 : 11 ≤ xs.length)
    (hpos : ∀ p ∈ xs, 0 < p) :
    ∀ v ∈ (pctChange100 xs).drop (xs.length - 10), ∃ q, v = PVal.val q := by
  intro v hv
  rw [List.mem_iff_getElem] at hv
  obtain ⟨j, hj, hv⟩ := hv
  rw [List.getElem_drop] at hv
  have hlen : (pctChange100 xs).length = xs.length := length_pctChange100 xs
  have hjlt : xs.length - 10 + j < xs.length := by
    rw [List.length_drop, hlen] at hj
    omega
  rw [pctChange100_getElem xs (xs.length - 10 + j) (by rw [hlen]; exact hjlt),
    if_neg (by omega)] at hv
  have hprev : (0 : ℚ) < xs.getD (xs.length - 10 + j - 1) 0 := by
    rw [List.getD_eq_getElem xs 0 (by omega)]
    exact hpos _ (List.getElem_mem ..)
  refine ⟨(xs.getD (xs.length - 10 + j) 0 / xs.getD (xs.length - 10 + j - 1) 0 - 1) * 100, ?_⟩
  rw [← hv]
  simp only [pct100]
  rw [if_pos hprev.ne']

/-- The last cell of a w-point rolling mean is defined once the column
has at least w points. -/
lemma rollingMean_getLast_ne_nan (w : Nat) (xs : List ℚ) (hw : w ≤ xs.length)
    (h0 : 0 < xs.length) :
    ∃ v, (rollingMean w xs).getLast? = some v ∧ v ≠ PVal.nan := by
  simp only [rollingMean]
  rw [getLast?_range_map _ _ h0]
  refine ⟨_, rfl, ?_⟩
  rw [if_neg (by omega)]
  simp

/-- The last cell of the 10-point rolling std is defined when the last
10 input cells are finite. -/
lemma rollingStd_getLast_ne_nan (sqrtQ : ℚ → ℚ) (xs : List PVal)
    (h10 : 10 ≤ xs.length)
    (hval : ∀ v ∈ xs.drop (xs.length - 10), ∃ q, v = PVal.val q) :
    ∃ v, (rollingStd sqrtQ 10 xs).getLast? = some v ∧ v ≠ PVal.nan := by
  have h0 : 0 < xs.length := by omega
  simp only [rollingStd]
  rw [getLast?_range_map _ _ h0]
  refine ⟨_, rfl, ?_⟩
  rw [if_neg (by omega)]
  have hw : trailingWindow xs 10 (xs.length - 1) = xs.drop (xs.length - 10) := by
    unfold trailingWindow
    rw [show xs.length - 1 + 1 = xs.length from by omega, List.take_length]
  rw [hw]
  obtain ⟨qs, hqs⟩ := allVals_isSome _ hval
  rw [hqs]
  simp

/-- Every cell of the volume / market_cap column is finite when the
market caps are nonzero. -/
lemma zipWith_pdivQ_ne_nan (l1 l2 : List ℚ) (h : ∀ b ∈ l2, b ≠ 0) :
    ∀ x ∈ List.zipWith pdivQ l1 l2, x ≠ PVal.nan := by
  induction l1 generalizing l2 with
  | nil => simp
  | cons a t ih =>
    cases l2 with
    | nil => simp
    | cons b t2 =>
      intro x hx
      rcases List.mem_cons.mp hx with hh | hh
      · rw [hh]
        simp only [pdivQ]
        rw [if_pos (h b (List.mem_cons_self b t2))]
        simp
      · exact ih t2 (fun c hc => h c (List.mem_cons_of_mem b hc)) x hh

/-- A concrete 30-row series with strictly increasing prices (crossing
zero near the end), a zero market cap with positive volume at row 5,
sorted by date. -/
def c4rows : List DataRow :=
  (List.range 30).map
    (fun (i : Nat) => ⟨(i : Int), (i : ℚ) - 28, if i = 5 then 0 else 1000, 1⟩)

/-- C4 counterexample: on a monotonically increasing price series of
length 30, process_historical_data performs the volume / market_cap
division unguarded: the zero market cap at row 5 (with volume 1) yields
+inf, not a NaN sentinel; moreover the volatility column keeps a NaN in
its final cell even after back-fill (the zero price produces an
infinite pct_change inside the last rolling window), so the claim as
stated fails on this input both for the guarded-division conjunct and
for the all-columns-non-null conjunct. -/
theorem process_historical_data_unguarded_division :
    c4rows.Sorted (fun a b => a.date ≤ b.date)
    ∧ (c4rows.map DataRow.price).Pairwise (· < ·)
    ∧ c4rows.length = 30
    ∧ (c4rows.getD 5 ⟨0, 0, 0, 0⟩).market_cap = 0
    ∧ (c4rows.getD 5 ⟨0, 0, 0, 0⟩).volume = 1
    ∧ (process_historical_data id c4rows).volume_to_mcap.getD 5 PVal.nan = PVal.pinf
    ∧ PVal.pinf ≠ PVal.nan
    ∧ (process_historical_data id c4rows).volatility.getLast? = some PVal.nan := by
  refine ⟨by decide, by with_unfolding_all decide, by decide, by with_unfolding_all decide,
    by with_unfolding_all decide, by with_unfolding_all decide, by decide,
    by with_unfolding_all decide⟩

/-- C4 amended: for a date-sorted input series of length at least 30
with monotonically increasing, positive prices and positive market
caps, every derived column of the processed frame (daily_return,
volatility, market_cap_change, volume_to_mcap and the six moving
averages) has one cell per row and contains no NaN after back-fill;
volume_to_mcap itself is the unguarded elementwise division, which the
positive market caps keep finite. -/
theorem process_historical_data_non_null
    (sqrtQ : ℚ → ℚ) (rows : List DataRow)
    (hsort : rows.Sorted (fun a b => a.date ≤ b.date))
    (hlen : 30 ≤ rows.length)
    (hmono : (rows.map DataRow.price).Pairwise (· < ·))
    (hprice : ∀ r ∈ rows, 0 < r.price)
    (hmcap : ∀ r ∈ rows, 0 < r.market_cap) :
    ((process_historical_data sqrtQ rows).daily_return.length = rows.length
      ∧ ∀ v ∈ (process_historical_data sqrtQ rows).daily_return, v ≠ PVal.nan)
    ∧ ((process_historical_data sqrtQ rows).volatility.length = rows.length
      ∧ ∀ v ∈ (process_historical_data sqrtQ rows).volatility, v ≠ PVal.nan)
    ∧ ((process_historical_data sqrtQ rows).market_cap_change.length = rows.length
      ∧ ∀ v ∈ (process_historical_data sqrtQ rows).market_cap_change, v ≠ PVal.nan)
    ∧ ((process_historical_data sqrtQ rows).volume_to_mcap.length = rows.length
      ∧ ∀ v ∈ (process_historical_data sqrtQ rows).volume_to_mcap, v ≠ PVal.nan)
    ∧ ((process_historical_data sqrtQ rows).price_7d_ma.length = rows.length
      ∧ ∀ v ∈ (process_historical_data sqrtQ rows).price_7d_ma, v ≠ PVal.nan)
    ∧ ((process_historical_data sqrtQ rows).price_30d_ma.length = rows.length
      ∧ ∀ v ∈ (process_historical_data sqrtQ rows).price_30d_ma, v ≠ PVal.nan)
    ∧ ((process_historical_data sqrtQ rows).market_cap_7d_ma.length = rows.length
      ∧ ∀ v ∈ (process_historical_data sqrtQ rows).market_cap_7d_ma, v ≠ PVal.nan)
    ∧ ((process_historical_data sqrtQ rows).market_cap_30d_ma.length = rows.length
      ∧ ∀ v ∈ (process_historical_data sqrtQ rows).market_cap_30d_ma, v ≠ PVal.nan)
    ∧ ((process_historical_data sqrtQ rows).volume_7d_ma.length = rows.length
      ∧ ∀ v ∈ (process_historical_data sqrtQ rows).volume_7d_ma, v ≠ PVal.nan)
    ∧ ((process_historical_data sqrtQ rows).volume_30d_ma.length = rows.length
      ∧ ∀ v ∈ (process_historical_data sqrtQ rows).volume_30d_ma, v ≠ PVal.nan) := by
  have hdf : rows.insertionSort (fun a b => a.date ≤ b.date) = rows :=
    hsort.insertionSort_eq
  have hppos : ∀ p ∈ rows.map DataRow.price, 0 < p := by
    intro p hp
    obtain ⟨r, hr, rfl⟩ := List.mem_map.mp hp
    exact hprice r hr
  have hmpos : ∀ p ∈ rows.map DataRow.market_cap, 0 < p := by
    intro p hp
    obtain ⟨r, hr, rfl⟩ := List.mem_map.mp hp
    exact hmcap r hr
  have hplen : (rows.map DataRow.price).length = rows.length := List.length_map ..
  have hmlen : (rows.map DataRow.market_cap).length = rows.length := List.length_map ..
  have hvlen : (rows.map DataRow.volume).length = rows.length := List.length_map ..
  simp only [process_historical_data, hdf]
  refine ⟨⟨?_, ?_⟩, ⟨?_, ?_⟩, ⟨?_, ?_⟩, ⟨?_, ?_⟩, ⟨?_, ?_⟩, ⟨?_, ?_⟩, ⟨?_, ?_⟩,
    ⟨?_, ?_⟩, ⟨?_, ?_⟩, ⟨?_, ?_⟩⟩
  · rw [length_bfill, length_pctChange100, hplen]
  · exact bfill_ne_nan _ (pctChange100_getLast_ne_nan _ (by omega) hppos)
  · rw [length_bfill, length_rollingStd, length_pctChange100, hplen]
  · refine bfill_ne_nan _ (rollingStd_getLast_ne_nan sqrtQ _ ?_ ?_)
    · rw [length_pctChange100]
      omega
    · rw [length_pctChange100]
      exact pctChange100_drop_val _ (by omega) hppos
  · rw [length_bfill, length_pctChange100, hmlen]
  · exact bfill_ne_nan _ (pctChange100_getLast_ne_nan _ (by omega) hmpos)
  · rw [length_bfill, List.length_zipWith, hvlen, hmlen]
    omega
  · exact bfill_ne_nan_of_all _
      (zipWith_pdivQ_ne_nan _ _ (fun b hb => (hmpos b hb).ne'))
  · rw [length_bfill, length_rollingMean, hplen]
  · exact bfill_ne_nan _ (rollingMean_getLast_ne_nan 7 _ (by omega) (by omega))
  · rw [length_bfill, length_rollingMean, hplen]
  · exact bfill_ne_nan _ (rollingMean_getLast_ne_nan 30 _ (by omega) (by omega))
  · rw [length_bfill, length_rollingMean, hmlen]
  · exact bfill_ne_nan _ (rollingMean_getLast_ne_nan 7 _ (by omega) (by omega))
  · rw [length_bfill, length_rollingMean, hmlen]
  · exact bfill_ne_nan _ (rollingMean_getLast_ne_nan 30 _ (by omega) (by omega))
  · rw [length_bfill, length_rollingMean, hvlen]
  · exact bfill_ne_nan _ (rollingMean_getLast_ne_nan 7 _ (by omega) (by omega))
  · rw [length_bfill, length_rollingMean, hvlen]
  · exact bfill_ne_nan _ (rollingMean_getLast_ne_nan 30 _ (by omega) (by omega))

/-- A well-behaved 30-row series: increasing positive prices, constant
positive market caps. -/
def w4rows : List DataRow :=
  (List.range 30).map (fun (i : Nat) => ⟨(i : Int), (i : ℚ) + 1, 1000, 7⟩)

/-- Witness for C4 on a concrete well-behaved series: the hypotheses
hold and the daily_return column is complete and NaN-free. -/
theorem process_historical_data_non_null_witness :
    (w4rows.Sorted (fun a b => a.date ≤ b.date)
      ∧ 30 ≤ w4rows.length
      ∧ (w4rows.map DataRow.price).Pairwise (· < ·)
      ∧ (∀ r ∈ w4rows, 0 < r.price)
      ∧ (∀ r ∈ w4rows, 0 < r.market_cap))
    ∧ ((process_historical_data id w4rows).daily_return.length = w4rows.length
      ∧ ∀ v ∈ (process_historical_data id w4rows).daily_return, v ≠ PVal.nan) :=
  ⟨⟨by decide, by decide, by with_unfolding_all decide, by with_unfolding_all decide,
      by with_unfolding_all decide⟩,
    (process_historical_data_non_null id w4rows (by decide) (by decide)
      (by with_unfolding_all decide) (by with_unfolding_all decide)
      (by with_unfolding_all decide)).1⟩

end Crptt
